import Mathlib

/-!
Verification of the audit/compliance logging subsystem of the church_app
backend, shallowly embedded from the JavaScript source:

* `src/models/AuditLog.js` — schema defaults, `logAction`, `determineRiskLevel`,
  `isSensitiveAction`, `triggerSecurityAlert`, `flag`, `review`, and the
  pre-save hook.
* `src/controllers/auditLogController.js` — `getSecurityEvents` summary,
  `convertToCSV`.
* the audit routes file — compliance-report handler and cleanup handler.

Persistence is modelled as an explicit list of records plus a boolean
"store healthy" flag deciding whether a save succeeds; Mongoose document
construction is modelled by applying the caller's data, then the explicit
overrides of `logAction`, then the schema defaults for absent fields
(Mongoose applies schema defaults when the document is constructed).
Dates are naturals (milliseconds); ObjectIds are strings.
-/

namespace ChurchAudit

/-! ## Risk classifier (`determineRiskLevel`, `isSensitiveAction`) -/

/-- The `criticalActions` list of `determineRiskLevel`. -/
def criticalActions : List String :=
  ["hard_delete_user", "reset_all_settings", "import_settings",
   "create_super_admin", "delete_admin", "system_shutdown"]

/-- The `highRiskActions` list of `determineRiskLevel`. -/
def highRiskActions : List String :=
  ["update_user_status", "reset_user_password", "delete_user",
   "update_admin_role", "update_system_settings", "bulk_user_operation"]

/-- The `mediumRiskActions` list of `determineRiskLevel`. -/
def mediumRiskActions : List String :=
  ["verify_user", "create_admin", "update_settings_category",
   "export_settings", "view_system_settings"]

/-- `determineRiskLevel(action, category)`: membership tests in order,
defaulting to `low`.  The `category` parameter is accepted but unused,
exactly as in the source. -/
def determineRiskLevel (action : String) (_category : String) : String :=
  if criticalActions.contains action then "critical"
  else if highRiskActions.contains action then "high"
  else if mediumRiskActions.contains action then "medium"
  else "low"

/-- The `sensitiveActions` list of `isSensitiveAction`. -/
def sensitiveActions : List String :=
  ["reset_user_password", "view_user_details", "export_settings",
   "view_system_settings", "update_system_settings", "create_admin",
   "update_admin_role", "delete_admin", "bulk_user_operation"]

/-- `isSensitiveAction(action)`. -/
def isSensitiveAction (action : String) : Bool :=
  sensitiveActions.contains action

/-! ## Event record and caller data -/

/-- A persisted audit-log document (the schema fields the audit subsystem
reads or writes; `Option` marks fields with no schema default that may be
absent). -/
structure Record where
  action : String
  actionCategory : String
  description : String
  actorType : String
  actorId : String
  actorEmail : Option String
  actorName : Option String
  actorRole : Option String
  actorIP : Option String
  actorUserAgent : Option String
  targetType : Option String
  targetId : Option String
  success : Bool
  riskLevel : String
  sensitiveAction : Bool
  retentionCategory : String
  timestamp : Option Nat
  flagged : Bool
  flagReason : Option String
  reviewed : Bool
  reviewNotes : Option String
  reviewedBy : Option String
  reviewedAt : Option Nat
  archived : Bool
  deriving DecidableEq, Repr

/-- The caller-supplied `logData` object: the payload fields plus the four
derived fields a caller might (wrongly) try to set.  Fields the schema
defaults are `Option`s here, `none` meaning "not supplied". -/
structure LogData where
  action : String
  actionCategory : String
  description : String
  actorType : String
  actorId : String
  actorEmail : Option String := none
  actorName : Option String := none
  actorRole : Option String := none
  actorIP : Option String := none
  actorUserAgent : Option String := none
  targetType : Option String := none
  targetId : Option String := none
  success : Option Bool := none
  riskLevel : Option String := none
  sensitiveAction : Option Bool := none
  retentionCategory : Option String := none
  timestamp : Option Nat := none
  flagged : Option Bool := none
  flagReason : Option String := none
  reviewed : Option Bool := none
  reviewNotes : Option String := none
  reviewedBy : Option String := none
  reviewedAt : Option Nat := none
  deriving DecidableEq, Repr

/-- `new this({ ...logData, riskLevel, sensitiveAction, timestamp: new Date() })`:
the spread of `logData`, then the three explicit overrides, then the Mongoose
schema defaults (`success: true`, `riskLevel: 'low'` — here pre-empted by the
override — `sensitiveAction: false`, `retentionCategory: 'standard'`,
`flagged: false`, `reviewed: false`) for fields the caller left absent. -/
def mkAuditLog (logData : LogData) (riskLevel : String) (sensitive : Bool)
    (now : Nat) : Record :=
  { action := logData.action
    actionCategory := logData.actionCategory
    description := logData.description
    actorType := logData.actorType
    actorId := logData.actorId
    actorEmail := logData.actorEmail
    actorName := logData.actorName
    actorRole := logData.actorRole
    actorIP := logData.actorIP
    actorUserAgent := logData.actorUserAgent
    targetType := logData.targetType
    targetId := logData.targetId
    success := logData.success.getD true
    riskLevel := riskLevel
    sensitiveAction := sensitive
    retentionCategory := logData.retentionCategory.getD "standard"
    timestamp := some now
    flagged := logData.flagged.getD false
    flagReason := logData.flagReason
    reviewed := logData.reviewed.getD false
    reviewNotes := logData.reviewNotes
    reviewedBy := logData.reviewedBy
    reviewedAt := logData.reviewedAt
    archived := false }

/-- The retention rule spelt out in the body of the pre-save hook:
`critical → permanent; high risk or sensitive → extended; else standard`. -/
def deriveRetention (riskLevel : String) (sensitive : Bool) : String :=
  if riskLevel = "critical" then "permanent"
  else if riskLevel = "high" ∨ sensitive then "extended"
  else "standard"

/-- The `pre('save')` middleware: fill `timestamp` when absent, and run the
retention derivation only when `retentionCategory` is falsy (absent fields
were already given the schema default `'standard'` at construction, so that
guard only fires on an empty string). -/
def preSave (now : Nat) (r : Record) : Record :=
  let r1 := if r.timestamp.isNone then { r with timestamp := some now } else r
  if r1.retentionCategory = "" then
    { r1 with retentionCategory := deriveRetention r1.riskLevel r1.sensitiveAction }
  else r1

/-- Outcome of one `logAction` call: the value returned to the caller
(`none` models the `return null` of the catch block), the store after the
call, and the list of records handed to `triggerSecurityAlert`, in order. -/
structure LogResult where
  result : Option Record
  store : List Record
  alerts : List Record
  deriving DecidableEq, Repr

/-- `save()` against the store: appends when the store is healthy, throws
(models the rejected promise) otherwise. -/
def saveToStore (healthy : Bool) (store : List Record) (r : Record) :
    Except String (List Record) :=
  if healthy then .ok (store ++ [r]) else .error "store outage"

/-- The body of the `try` block of `logAction`: classify, construct the
document, save (running the pre-save hook), then trigger the security alert
when high risk, critical, or sensitive. -/
def logActionBody (healthy : Bool) (store : List Record) (logData : LogData)
    (now : Nat) : Except String (Record × List Record × List Record) := do
  let riskLevel := determineRiskLevel logData.action logData.actionCategory
  let sensitive := isSensitiveAction logData.action
  let auditLog := preSave now (mkAuditLog logData riskLevel sensitive now)
  let store' ← saveToStore healthy store auditLog
  let alerts :=
    if riskLevel = "high" ∨ riskLevel = "critical" ∨ sensitive then [auditLog]
    else []
  return (auditLog, store', alerts)

/-- `logAction(logData)`: the `try`/`catch` — any failure is swallowed and
`null` is returned, leaving the store as it was. -/
def logAction (healthy : Bool) (store : List Record) (logData : LogData)
    (now : Nat) : LogResult :=
  match logActionBody healthy store logData now with
  | .ok (auditLog, store', alerts) =>
      { result := some auditLog, store := store', alerts := alerts }
  | .error _ => { result := none, store := store, alerts := [] }

/-! ## Review workflow (`flag`, `review`) -/

/-- Instance method `flag(reason, reviewerId)`: set the four flag fields and
`save()` (which runs the pre-save hook). -/
def flagRecord (reason : String) (reviewerId : String) (now : Nat)
    (r : Record) : Record :=
  preSave now { r with
    flagged := true
    flagReason := some reason
    reviewedBy := some reviewerId
    reviewedAt := some now }

/-- Instance method `review(notes, reviewerId)`: set the four review fields
and `save()` (which runs the pre-save hook). -/
def reviewRecord (notes : String) (reviewerId : String) (now : Nat)
    (r : Record) : Record :=
  preSave now { r with
    reviewed := true
    reviewNotes := some notes
    reviewedBy := some reviewerId
    reviewedAt := some now }

/-- One review-workflow call on a persisted record. -/
inductive ReviewOp where
  | flagOp (reason reviewerId : String) (now : Nat)
  | reviewOp (notes reviewerId : String) (now : Nat)
  deriving DecidableEq, Repr

/-- Apply one review-workflow call. -/
def applyReviewOp (r : Record) : ReviewOp → Record
  | .flagOp reason reviewerId now => flagRecord reason reviewerId now r
  | .reviewOp notes reviewerId now => reviewRecord notes reviewerId now r

/-- Apply a sequence of flag/review calls, oldest first. -/
def applyReviewOps (ops : List ReviewOp) (r : Record) : Record :=
  ops.foldl applyReviewOp r

/-! ## Store queries -/

/-- `countDocuments(query)` over the modelled store. -/
def countDocuments (store : List Record) (p : Record → Bool) : Nat :=
  (store.filter p).length

/-- The `timestamp: { $gte, $lte }` clause built by the handlers: absent
bounds impose nothing; when a bound is present, a document with no
`timestamp` does not match. -/
def matchesTime (startDate endDate : Option Nat) (r : Record) : Bool :=
  match startDate, endDate with
  | none, none => true
  | _, _ =>
    match r.timestamp with
    | none => false
    | some t => startDate.all (· ≤ t) && endDate.all (t ≤ ·)

/-! ## Compliance report handler (`GET /compliance/report`) -/

/-- The handler's score expression
`Math.max(0, 100 - (criticalEvents * 5) - (flaggedEvents * 2))`. -/
def complianceScore (criticalEvents flaggedEvents : Nat) : Int :=
  max 0 (100 - ((criticalEvents : Int) * 5) - ((flaggedEvents : Int) * 2))

/-- The `summary` block of the compliance report. -/
structure ComplianceSummary where
  totalAuditLogs : Nat
  criticalSecurityEvents : Nat
  sensitiveDataAccess : Nat
  failedOperations : Nat
  flaggedActivities : Nat
  score : Int
  deriving DecidableEq, Repr

/-- The compliance-report handler's five `countDocuments` calls and the
score. -/
def complianceReport (store : List Record) (startDate endDate : Option Nat) :
    ComplianceSummary :=
  let q := matchesTime startDate endDate
  let criticalEvents := countDocuments store fun r => q r && r.riskLevel == "critical"
  let flaggedEvents := countDocuments store fun r => q r && r.flagged
  { totalAuditLogs := countDocuments store q
    criticalSecurityEvents := criticalEvents
    sensitiveDataAccess := countDocuments store fun r => q r && r.sensitiveAction
    failedOperations := countDocuments store fun r => q r && !r.success
    flaggedActivities := flaggedEvents
    score := complianceScore criticalEvents flaggedEvents }

/-! ## Security events (`getSecurityEvents` controller) -/

/-- The caller's query parameters for `getSecurityEvents` (after the
controller normalised `riskLevel` to an array and `flagged` to a boolean). -/
structure SecFilters where
  riskLevel : List String := ["high", "critical"]
  flagged : Option Bool := none
  startDate : Option Nat := none
  endDate : Option Nat := none
  deriving DecidableEq, Repr

/-- The filtered `countDocuments` of `getSecurityEvents`: riskLevel `$in`
the caller's set, the optional `flagged` equality, the optional time
range. -/
def secEventMatches (f : SecFilters) (r : Record) : Bool :=
  f.riskLevel.contains r.riskLevel
    && (match f.flagged with | none => true | some b => r.flagged == b)
    && matchesTime f.startDate f.endDate r

/-- The `securitySummary` block of the response. -/
structure SecuritySummary where
  totalSecurityEvents : Nat
  criticalEvents : Nat
  highRiskEvents : Nat
  flaggedEvents : Nat
  unreviewedEvents : Nat
  deriving DecidableEq, Repr

/-- `getSecurityEvents`: `total` is counted with the caller's filters; the
four summary counts are unfiltered `countDocuments` calls (and
`unreviewedEvents` uses the fixed set `['high','critical']`). -/
def securitySummary (store : List Record) (f : SecFilters) : SecuritySummary :=
  { totalSecurityEvents := countDocuments store (secEventMatches f)
    criticalEvents := countDocuments store fun r => r.riskLevel == "critical"
    highRiskEvents := countDocuments store fun r => r.riskLevel == "high"
    flaggedEvents := countDocuments store fun r => r.flagged
    unreviewedEvents := countDocuments store fun r =>
      (r.riskLevel == "high" || r.riskLevel == "critical") && !r.reviewed }

/-! ## Cleanup handler (`POST /cleanup`) -/

/-- The cleanup query: `timestamp < cutoffDate`, and when `preserveCritical`
holds, `riskLevel ∉ ['critical']`.  The cutoff is `Date.now()` minus the age
in days; `Int` so the subtraction cannot truncate. -/
def cleanupMatches (cutoff : Int) (preserveCritical : Bool) (r : Record) : Bool :=
  (match r.timestamp with
    | none => false
    | some t => (t : Int) < cutoff)
    && (!preserveCritical || !(r.riskLevel == "critical"))

/-- `new Date(Date.now() - olderThanDays * 24 * 60 * 60 * 1000)`. -/
def cleanupCutoff (now olderThanDays : Nat) : Int :=
  (now : Int) - (olderThanDays : Int) * 24 * 60 * 60 * 1000

/-- The cleanup handler: validate `action`, count the matching records,
then delete them (`deleteMany`) or mark them archived (`updateMany`);
respond with the count taken before the write. -/
def cleanupLogs (store : List Record) (now : Nat) (olderThanDays : Nat)
    (action : String) (preserveCritical : Bool) :
    Except String (List Record × Nat) :=
  if !(["archive", "delete"].contains action) then
    .error "Invalid cleanup action. Must be archive or delete"
  else
    let q := cleanupMatches (cleanupCutoff now olderThanDays) preserveCritical
    let logsToCleanup := countDocuments store q
    let store' :=
      if action == "delete" then store.filter fun r => !q r
      else store.map fun r => if q r then { r with archived := true } else r
    .ok (store', logsToCleanup)

/-! ## CSV export (`convertToCSV`) -/

/-- A JavaScript value appearing in an exported (lean) document.  The code
only distinguishes `typeof value === 'string'` from everything else; a
non-string value reaches the output through the string coercion that
`Array.prototype.join` applies, carried here by the `raw` constructor. -/
inductive JSVal where
  | str (s : String)
  | raw (coerced : String)
  deriving DecidableEq, Repr

/-- `value.replace(/"/g, '""')` at the character level. -/
def escQuotesList : List Char → List Char
  | [] => []
  | c :: cs =>
      if c = '"' then '"' :: '"' :: escQuotesList cs
      else c :: escQuotesList cs

/-- `value.replace(/"/g, '""')`. -/
def escQuotes (s : String) : String :=
  ⟨escQuotesList s.data⟩

/-- One cell of a CSV row: strings are wrapped in double quotes with embedded
quotes doubled; anything else passes through as its string coercion. -/
def renderVal : JSVal → String
  | .str s => "\"" ++ escQuotes s ++ "\""
  | .raw coerced => coerced

/-- `Array.prototype.join(sep)`. -/
def joinSep (sep : String) : List String → String
  | [] => ""
  | [x] => x
  | x :: y :: xs => x ++ sep ++ joinSep sep (y :: xs)

/-- `convertToCSV(logs)`: empty string on no records, otherwise the keys of
the first record joined by commas, then one row of rendered values per
record, all joined by newlines. -/
def convertToCSV (logs : List (List (String × JSVal))) : String :=
  match logs with
  | [] => ""
  | first :: _ =>
      let headers := joinSep "," (first.map Prod.fst)
      let rows := logs.map fun log => joinSep "," (log.map fun kv => renderVal kv.2)
      joinSep "\n" (headers :: rows)

/-- Number of newline characters in a string. -/
def countNL (s : String) : Nat :=
  s.data.countP fun c => c == '\n'

/-- Number of text lines a string displays as: newline count plus one. -/
def lineCount (s : String) : Nat :=
  countNL s + 1

/-- Number of double-quote characters in a string. -/
def countQuote (s : String) : Nat :=
  s.data.countP fun c => c == '"'

/-- A value whose textual content has no newline. -/
def valNoNL : JSVal → Bool
  | .str s => countNL s == 0
  | .raw coerced => countNL coerced == 0

/-! ## Test fixtures used by the closed witness theorems -/

/-- A `logAction` payload for the critical action `hard_delete_user`,
leaving the four derived fields unset as the caller contract demands. -/
def hardDeleteData : LogData :=
  { action := "hard_delete_user"
    actionCategory := "user_management"
    description := "permanently delete a user"
    actorType := "admin"
    actorId := "adm1" }

/-- A `logAction` payload with an unrecognized action name. -/
def fooBarData : LogData :=
  { action := "foo_bar"
    actionCategory := "security"
    description := "unknown action"
    actorType := "admin"
    actorId := "adm1" }

/-- A `logAction` payload that (against the caller contract) supplies
`retentionCategory` for an unrecognized, non-sensitive action. -/
def smuggledRetentionData : LogData :=
  { fooBarData with retentionCategory := some "permanent" }

/-- The record `logAction` persists for `smuggledRetentionData` at time 7. -/
def smuggledSaved : Record :=
  preSave 7 (mkAuditLog smuggledRetentionData
    (determineRiskLevel "foo_bar" "security") (isSensitiveAction "foo_bar") 7)

/-! ## Reduction lemmas for `logAction` and `preSave` -/

lemma logAction_healthy (store : List Record) (logData : LogData) (now : Nat) :
    logAction true store logData now =
      { result := some (preSave now (mkAuditLog logData
          (determineRiskLevel logData.action logData.actionCategory)
          (isSensitiveAction logData.action) now))
        store := store ++ [preSave now (mkAuditLog logData
          (determineRiskLevel logData.action logData.actionCategory)
          (isSensitiveAction logData.action) now)]
        alerts :=
          if determineRiskLevel logData.action logData.actionCategory = "high"
              ∨ determineRiskLevel logData.action logData.actionCategory = "critical"
              ∨ isSensitiveAction logData.action = true then
            [preSave now (mkAuditLog logData
              (determineRiskLevel logData.action logData.actionCategory)
              (isSensitiveAction logData.action) now)]
          else [] } := rfl

lemma preSave_eq_self (now : Nat) (r : Record) (ht : r.timestamp.isSome)
    (hr : r.retentionCategory ≠ "") : preSave now r = r := by
  have h1 : ¬(r.timestamp.isNone = true) := by
    simp_all [Option.isSome_iff_ne_none]
  simp only [preSave]
  rw [if_neg h1, if_neg hr]

/-! ## Claim theorems -/

/-- C2: `classify` returns `critical` for actions in `criticalActions`,
`high` for actions in `highRiskActions` not in `criticalActions`, `medium`
for actions in `mediumRiskActions` and neither earlier set, and `low`
otherwise; `sensitive` holds iff the action is in `sensitiveActions`; the
category argument never affects the result, and every action string yields
a result (the function is total, defaulting to `low`/not sensitive). -/
theorem C2_classifier (action c c' : String) :
    (action ∈ criticalActions → determineRiskLevel action c = "critical")
    ∧ (action ∈ highRiskActions → action ∉ criticalActions →
        determineRiskLevel action c = "high")
    ∧ (action ∈ mediumRiskActions → action ∉ criticalActions →
        action ∉ highRiskActions → determineRiskLevel action c = "medium")
    ∧ (action ∉ criticalActions → action ∉ highRiskActions →
        action ∉ mediumRiskActions → determineRiskLevel action c = "low")
    ∧ (isSensitiveAction action = true ↔ action ∈ sensitiveActions)
    ∧ determineRiskLevel action c = determineRiskLevel action c' := by
  refine ⟨?_, ?_, ?_, ?_, ?_, rfl⟩ <;>
    simp +contextual [determineRiskLevel, isSensitiveAction]

/-- C2 witness: the classifier evaluated on concrete critical, unknown and
sensitive action names. -/
theorem C2_classifier_witness :
    determineRiskLevel "hard_delete_user" "user_management" = "critical"
    ∧ determineRiskLevel "foo_bar" "security" = "low"
    ∧ isSensitiveAction "view_user_details" = true :=
  ⟨(C2_classifier "hard_delete_user" "user_management" "x").1 (by decide),
   (C2_classifier "foo_bar" "security" "x").2.2.2.1
     (by decide) (by decide) (by decide),
   ((C2_classifier "view_user_details" "user_management" "x").2.2.2.2.1).mpr
     (by decide)⟩

/-- C1 (code evaluation at the failing input): `logAction` on the critical
action `hard_delete_user` classifies the record as `critical`, yet persists
`retentionCategory = "standard"`, because the schema default `'standard'`
is applied at document construction and the pre-save guard
`if (!this.retentionCategory)` therefore never fires; the derivation rule
itself (`deriveRetention`, transcribed from the pre-save body) demands
`"permanent"` there. -/
theorem C1_retention_default_defeats_derivation :
    ((logAction true [] hardDeleteData 1000).result.map Record.riskLevel
      = some "critical")
    ∧ ((logAction true [] hardDeleteData 1000).result.map Record.retentionCategory
      = some "standard")
    ∧ deriveRetention "critical" false = "permanent"
    ∧ "standard" ≠ "permanent" := by decide

/-- C3: when persistence fails, `logAction` swallows the failure: it
returns the null sentinel (`none`), the store is unchanged (no audit record
is stored), and no alert is dispatched; being a total function of its
inputs, it raises nothing to the caller. -/
theorem C3_persistence_failure_swallowed (store : List Record)
    (logData : LogData) (now : Nat) :
    logAction false store logData now
      = { result := none, store := store, alerts := [] } := by
  rfl

/-- C4: on a successful persist, the Alert Dispatcher receives the persisted
record exactly once iff the computed risk level is high or critical or the
action is sensitive; every dispatched record is the one just persisted and
is in the store; a failed persist dispatches nothing; and an unrecognized
action (risk `low`, not sensitive) never triggers the dispatcher. -/
theorem C4_alert_dispatch (store : List Record) (logData : LogData) (now : Nat) :
    ((logAction true store logData now).alerts.length = 1
      ↔ (determineRiskLevel logData.action logData.actionCategory = "high"
          ∨ determineRiskLevel logData.action logData.actionCategory = "critical"
          ∨ isSensitiveAction logData.action = true))
    ∧ ((logAction true store logData now).alerts.length = 0
        ∨ (logAction true store logData now).alerts.length = 1)
    ∧ (∀ a ∈ (logAction true store logData now).alerts,
        (logAction true store logData now).result = some a
        ∧ a ∈ (logAction true store logData now).store)
    ∧ (logAction false store logData now).alerts = []
    ∧ (determineRiskLevel logData.action logData.actionCategory = "low" →
        isSensitiveAction logData.action = false →
        (logAction true store logData now).alerts = []) := by
  by_cases hcond : determineRiskLevel logData.action logData.actionCategory = "high"
      ∨ determineRiskLevel logData.action logData.actionCategory = "critical"
      ∨ isSensitiveAction logData.action = true
  · refine ⟨?_, ?_, ?_, rfl, ?_⟩ <;>
      simp_all [logAction, logActionBody, saveToStore, Except.bind]
  · refine ⟨?_, ?_, ?_, rfl, ?_⟩ <;>
      simp_all [logAction, logActionBody, saveToStore, Except.bind]

/-- C4 witness: an unrecognized action on a healthy store dispatches no
alert, and the critical action `hard_delete_user` dispatches exactly one. -/
theorem C4_alert_dispatch_witness :
    (logAction true [] fooBarData 5).alerts = []
    ∧ (logAction true [] hardDeleteData 5).alerts.length = 1 :=
  ⟨(C4_alert_dispatch [] fooBarData 5).2.2.2.2 (by decide) (by decide),
   ((C4_alert_dispatch [] hardDeleteData 5).1).mpr (by decide)⟩

/-- C5 counterexample: a caller-supplied `retentionCategory` is NOT ignored.
`logAction` on an unrecognized, non-sensitive action whose payload smuggles
`retentionCategory: 'permanent'` persists `'permanent'`, while the derived
value for that record (`deriveRetention` on the computed risk level and
sensitivity) is `'standard'`. -/
theorem C5_smuggled_retention_persisted :
    ((logAction true [] smuggledRetentionData 7).result.map
        Record.retentionCategory = some "permanent")
    ∧ deriveRetention (determineRiskLevel "foo_bar" "security")
        (isSensitiveAction "foo_bar") = "standard"
    ∧ ("permanent" : String) ≠ "standard" := by decide

/-- C5 (amended): caller-supplied `riskLevel`, `sensitiveAction` and
`timestamp` are ignored and overwritten — the persisted record carries the
classifier's output and the creation time, and the entire outcome of
`logAction` is invariant under those three payload fields — while a
caller-supplied `retentionCategory` is persisted as given (absent, it takes
the schema default `'standard'`; the pre-save derivation never applies). -/
theorem C5_derived_fields_overwritten (store : List Record)
    (logData : LogData) (now : Nat) (r : Record)
    (hne : logData.retentionCategory ≠ some "")
    (h : (logAction true store logData now).result = some r) :
    r.riskLevel = determineRiskLevel logData.action logData.actionCategory
    ∧ r.sensitiveAction = isSensitiveAction logData.action
    ∧ r.timestamp = some now
    ∧ r.retentionCategory = logData.retentionCategory.getD "standard"
    ∧ (∀ healthy v vb vt,
        logAction healthy store
          { logData with riskLevel := v, sensitiveAction := vb, timestamp := vt }
          now
        = logAction healthy store logData now) := by
  rw [logAction_healthy] at h
  simp only [Option.some.injEq] at h
  have hps : preSave now (mkAuditLog logData
      (determineRiskLevel logData.action logData.actionCategory)
      (isSensitiveAction logData.action) now)
      = mkAuditLog logData
        (determineRiskLevel logData.action logData.actionCategory)
        (isSensitiveAction logData.action) now := by
    apply preSave_eq_self
    · rfl
    · show logData.retentionCategory.getD "standard" ≠ ""
      cases hv : logData.retentionCategory with
      | none => simp
      | some v => simpa [hv] using hne
  rw [hps] at h
  subst h
  exact ⟨rfl, rfl, rfl, rfl, fun healthy v vb vt => rfl⟩

/-- C5 witness: the amended theorem applied to the smuggling payload at
time 7; the persisted record carries the classifier's `low`/not-sensitive
verdict, timestamp 7, and the smuggled retention value. -/
theorem C5_derived_fields_overwritten_witness :
    smuggledSaved.riskLevel = determineRiskLevel "foo_bar" "security"
    ∧ smuggledSaved.sensitiveAction = isSensitiveAction "foo_bar"
    ∧ smuggledSaved.timestamp = some 7
    ∧ smuggledSaved.retentionCategory = "permanent" := by
  have h := C5_derived_fields_overwritten [] smuggledRetentionData 7
    smuggledSaved (by decide) (by decide)
  exact ⟨h.1, h.2.1, h.2.2.1, h.2.2.2.1⟩

/-- C6: the compliance report's score is the handler's
`Math.max(0, 100 - criticalEvents*5 - flaggedEvents*2)` expression, equal to
`max(0, 100 − 5×critical − 2×flagged)`; it is monotonically non-increasing
in each count, floored at 0, with 3 critical and 1 flagged giving 83 and
25 critical giving 0. -/
theorem C6_compliance_score (store : List Record) (sd ed : Option Nat)
    (c c' f f' : Nat) :
    (complianceReport store sd ed).score
      = complianceScore (complianceReport store sd ed).criticalSecurityEvents
          (complianceReport store sd ed).flaggedActivities
    ∧ complianceScore c f = max 0 (100 - 5 * (c : Int) - 2 * (f : Int))
    ∧ (c ≤ c' → complianceScore c' f ≤ complianceScore c f)
    ∧ (f ≤ f' → complianceScore c f' ≤ complianceScore c f)
    ∧ 0 ≤ complianceScore c f
    ∧ complianceScore 3 1 = 83
    ∧ complianceScore 25 0 = 0 := by
  refine ⟨rfl, ?_, ?_, ?_, ?_, by decide, by decide⟩
  · unfold complianceScore
    congr 1
    ring
  · intro h
    have hc : (c : Int) ≤ (c' : Int) := by exact_mod_cast h
    exact max_le_max le_rfl (by linarith)
  · intro h
    have hf : (f : Int) ≤ (f' : Int) := by exact_mod_cast h
    exact max_le_max le_rfl (by linarith)
  · exact le_max_left 0 _

/-- C6 witness: monotonicity applied at 3 → 4 critical events with one
flagged event, and the floor reached at 25 critical events. -/
theorem C6_compliance_score_witness :
    complianceScore 4 1 ≤ complianceScore 3 1 ∧ complianceScore 25 0 = 0 :=
  ⟨(C6_compliance_score [] none none 3 4 1 0).2.2.1 (by decide),
   (C6_compliance_score [] none none 3 4 1 0).2.2.2.2.2.2⟩

/-- C10: the security summary attached to the security-events response
counts `criticalEvents`, `highRiskEvents`, `flaggedEvents` and
`unreviewedEvents` over the entire store, ignoring the caller's risk-level
set, flagged filter and date range (the summary is identical under any two
filter choices); only `totalSecurityEvents` applies the caller's filters. -/
theorem C10_security_summary_unfiltered (store : List Record)
    (f g : SecFilters) :
    (securitySummary store f).criticalEvents
      = countDocuments store (fun r => r.riskLevel == "critical")
    ∧ (securitySummary store f).highRiskEvents
      = countDocuments store (fun r => r.riskLevel == "high")
    ∧ (securitySummary store f).flaggedEvents
      = countDocuments store (fun r => r.flagged)
    ∧ (securitySummary store f).unreviewedEvents
      = countDocuments store (fun r =>
          (r.riskLevel == "high" || r.riskLevel == "critical") && !r.reviewed)
    ∧ (securitySummary store f).criticalEvents
      = (securitySummary store g).criticalEvents
    ∧ (securitySummary store f).highRiskEvents
      = (securitySummary store g).highRiskEvents
    ∧ (securitySummary store f).flaggedEvents
      = (securitySummary store g).flaggedEvents
    ∧ (securitySummary store f).unreviewedEvents
      = (securitySummary store g).unreviewedEvents
    ∧ (securitySummary store f).totalSecurityEvents
      = countDocuments store (secEventMatches f) :=
  ⟨rfl, rfl, rfl, rfl, rfl, rfl, rfl, rfl, rfl⟩

/-! ## Frame machinery for the review workflow -/

/-- The write-once fields of a record: everything except the six
review-workflow fields (`flagged`, `flagReason`, `reviewed`, `reviewNotes`,
`reviewedBy`, `reviewedAt`). -/
def frameOf (r : Record) :=
  (r.action, r.actionCategory, r.description, r.actorType, r.actorId,
   r.actorEmail, r.actorName, r.actorRole, r.actorIP, r.actorUserAgent,
   r.targetType, r.targetId, r.success, r.riskLevel, r.sensitiveAction,
   r.retentionCategory, r.timestamp, r.archived)

lemma flagRecord_eq (r : Record) (ht : r.timestamp.isSome)
    (hr : r.retentionCategory ≠ "") (reason reviewer : String) (t : Nat) :
    flagRecord reason reviewer t r
      = { r with
          flagged := true
          flagReason := some reason
          reviewedBy := some reviewer
          reviewedAt := some t } := by
  unfold flagRecord
  exact preSave_eq_self t _ ht hr

lemma reviewRecord_eq (r : Record) (ht : r.timestamp.isSome)
    (hr : r.retentionCategory ≠ "") (notes reviewer : String) (t : Nat) :
    reviewRecord notes reviewer t r
      = { r with
          reviewed := true
          reviewNotes := some notes
          reviewedBy := some reviewer
          reviewedAt := some t } := by
  unfold reviewRecord
  exact preSave_eq_self t _ ht hr

lemma applyReviewOp_frame (r : Record) (op : ReviewOp)
    (ht : r.timestamp.isSome) (hr : r.retentionCategory ≠ "") :
    frameOf (applyReviewOp r op) = frameOf r := by
  cases op with
  | flagOp reason reviewer t =>
      rw [applyReviewOp, flagRecord_eq r ht hr]
      rfl
  | reviewOp notes reviewer t =>
      rw [applyReviewOp, reviewRecord_eq r ht hr]
      rfl

lemma applyReviewOps_frame (ops : List ReviewOp) :
    ∀ r : Record, r.timestamp.isSome → r.retentionCategory ≠ "" →
      frameOf (applyReviewOps ops r) = frameOf r := by
  induction ops with
  | nil => intro r ht hr; rfl
  | cons op ops ih =>
      intro r ht hr
      have hstep : frameOf (applyReviewOp r op) = frameOf r :=
        applyReviewOp_frame r op ht hr
      have ht' : (applyReviewOp r op).timestamp.isSome := by
        have : (applyReviewOp r op).timestamp = r.timestamp :=
          congrArg (fun x => x.2.2.2.2.2.2.2.2.2.2.2.2.2.2.2.2.1) hstep
        rw [this]; exact ht
      have hr' : (applyReviewOp r op).retentionCategory ≠ "" := by
        have : (applyReviewOp r op).retentionCategory = r.retentionCategory :=
          congrArg (fun x => x.2.2.2.2.2.2.2.2.2.2.2.2.2.2.2.1) hstep
        rw [this]; exact hr
      calc frameOf (applyReviewOps (op :: ops) r)
          = frameOf (applyReviewOps ops (applyReviewOp r op)) := rfl
        _ = frameOf (applyReviewOp r op) := ih _ ht' hr'
        _ = frameOf r := hstep

/-- A persisted high-risk record used by the closed witness theorems. -/
def baseRecord : Record :=
  { action := "update_user_status"
    actionCategory := "user_management"
    description := "suspend a member"
    actorType := "admin"
    actorId := "adm1"
    actorEmail := some "adm1@example.org"
    actorName := some "Admin One"
    actorRole := some "admin"
    actorIP := some "10.0.0.1"
    actorUserAgent := none
    targetType := some "user"
    targetId := some "usr9"
    success := true
    riskLevel := "high"
    sensitiveAction := false
    retentionCategory := "standard"
    timestamp := some 0
    flagged := false
    flagReason := none
    reviewed := false
    reviewNotes := none
    reviewedBy := none
    reviewedAt := none
    archived := false }

/-- C7: over any sequence of flag and review calls on a persisted record,
the write-once fields (action, actor fields, target, success, risk level,
sensitivity, retention category, timestamp) are unchanged; a flag call
rewrites exactly `flagged`, `flagReason`, `reviewedBy`, `reviewedAt`; a
review call rewrites exactly `reviewed`, `reviewNotes`, `reviewedBy`,
`reviewedAt`; and flagging twice is the same as flagging once with the
second reason, reviewer and time. -/
theorem C7_review_workflow_frame (r : Record) (ops : List ReviewOp)
    (ht : r.timestamp.isSome) (hr : r.retentionCategory ≠ "") :
    frameOf (applyReviewOps ops r) = frameOf r
    ∧ (∀ reason reviewer t, flagRecord reason reviewer t r
        = { r with
            flagged := true
            flagReason := some reason
            reviewedBy := some reviewer
            reviewedAt := some t })
    ∧ (∀ notes reviewer t, reviewRecord notes reviewer t r
        = { r with
            reviewed := true
            reviewNotes := some notes
            reviewedBy := some reviewer
            reviewedAt := some t })
    ∧ (∀ re1 rv1 t1 re2 rv2 t2,
        flagRecord re2 rv2 t2 (flagRecord re1 rv1 t1 r)
          = flagRecord re2 rv2 t2 r) := by
  refine ⟨applyReviewOps_frame ops r ht hr,
    fun reason reviewer t => flagRecord_eq r ht hr reason reviewer t,
    fun notes reviewer t => reviewRecord_eq r ht hr notes reviewer t,
    fun re1 rv1 t1 re2 rv2 t2 => ?_⟩
  rw [flagRecord_eq r ht hr re1 rv1 t1, flagRecord_eq r ht hr re2 rv2 t2]
  exact flagRecord_eq _ ht hr re2 rv2 t2

/-- C7 witness: a flag call followed by a review call on a concrete
persisted record leaves its write-once fields untouched, and the
double-flag collapse evaluated at concrete reasons. -/
theorem C7_review_workflow_frame_witness :
    frameOf (applyReviewOps
        [ReviewOp.flagOp "suspicious" "adm2" 5,
         ReviewOp.reviewOp "checked, fine" "adm3" 9] baseRecord)
      = frameOf baseRecord
    ∧ flagRecord "second" "adm3" 9 (flagRecord "first" "adm2" 5 baseRecord)
      = flagRecord "second" "adm3" 9 baseRecord := by
  have h := C7_review_workflow_frame baseRecord
    [ReviewOp.flagOp "suspicious" "adm2" 5,
     ReviewOp.reviewOp "checked, fine" "adm3" 9] (by decide) (by decide)
  exact ⟨h.1, h.2.2.2 "first" "adm2" 5 "second" "adm3" 9⟩

lemma length_filter_add_length_filter_not {α : Type} (p : α → Bool)
    (l : List α) :
    (l.filter p).length + (l.filter fun a => !p a).length = l.length := by
  induction l with
  | nil => rfl
  | cons a l ih =>
      by_cases hp : p a <;> simp [List.filter_cons, hp, ← ih] <;> omega

lemma cleanupLogs_delete_eq (store : List Record) (now : Nat) :
    cleanupLogs store now 365 "delete" true
      = .ok (store.filter fun r => !cleanupMatches (cleanupCutoff now 365) true r,
          countDocuments store (cleanupMatches (cleanupCutoff now 365) true)) :=
  rfl

/-- C9: cleanup with `olderThanDays = 365`, `action = "delete"`,
`preserveCritical = true` removes exactly the records older than the cutoff
whose risk level is not critical; every critical record and every record at
or after the cutoff survives; and the reported count is exactly the number
of records removed. -/
theorem C9_cleanup_delete_preserves_critical (store store' : List Record)
    (now : Nat) (count : Nat)
    (h : cleanupLogs store now 365 "delete" true = .ok (store', count)) :
    store' = store.filter (fun r => !cleanupMatches (cleanupCutoff now 365) true r)
    ∧ (∀ r ∈ store, r.riskLevel = "critical" → r ∈ store')
    ∧ (∀ r ∈ store, ∀ t, r.timestamp = some t →
        ¬((t : Int) < cleanupCutoff now 365) → r ∈ store')
    ∧ count = (store.filter (cleanupMatches (cleanupCutoff now 365) true)).length
    ∧ count + store'.length = store.length := by
  rw [cleanupLogs_delete_eq] at h
  simp only [Except.ok.injEq, Prod.mk.injEq] at h
  obtain ⟨hs, hc⟩ := h
  subst hs
  subst hc
  refine ⟨rfl, ?_, ?_, rfl, ?_⟩
  · intro r hmem hcrit
    refine List.mem_filter.mpr ⟨hmem, ?_⟩
    simp [cleanupMatches, hcrit]
  · intro r hmem t htv hge
    refine List.mem_filter.mpr ⟨hmem, ?_⟩
    simp [cleanupMatches, htv, hge]
  · exact length_filter_add_length_filter_not _ store

/-- An old non-critical record (timestamp at the epoch). -/
def oldLowRec : Record := { baseRecord with riskLevel := "low" }

/-- An old critical record (timestamp at the epoch). -/
def oldCriticalRec : Record :=
  { baseRecord with riskLevel := "critical", action := "delete_admin" }

/-- A recent high-risk record. -/
def recentRec : Record := { baseRecord with timestamp := some 39000000000 }

/-- A store holding one old critical, one old non-critical and one recent
record. -/
def c9store : List Record := [oldCriticalRec, oldLowRec, recentRec]

/-- C9 witness: at `now = 40000000000` ms (cutoff 8464000000 ms), deleting
with `preserveCritical` keeps the old critical record and the recent one,
and removes exactly the one old non-critical record. -/
theorem C9_cleanup_delete_witness :
    oldCriticalRec ∈ ([oldCriticalRec, recentRec] : List Record)
    ∧ recentRec ∈ ([oldCriticalRec, recentRec] : List Record)
    ∧ 1 + ([oldCriticalRec, recentRec] : List Record).length = c9store.length := by
  have h := C9_cleanup_delete_preserves_critical c9store
    [oldCriticalRec, recentRec] 40000000000 1 (by rfl)
  exact ⟨h.2.1 oldCriticalRec (by decide) rfl,
    h.2.2.1 recentRec (by decide) 39000000000 rfl (by decide),
    h.2.2.2.2⟩

/-! ## Counting lemmas for the CSV output -/

lemma countNL_append (a b : String) : countNL (a ++ b) = countNL a + countNL b := by
  cases a with | mk da =>
  cases b with | mk db =>
  show (da ++ db).countP _ = da.countP _ + db.countP _
  exact List.countP_append _ _ _

lemma countNL_escQuotesList (l : List Char) :
    (escQuotesList l).countP (fun c => c == '\n')
      = l.countP (fun c => c == '\n') := by
  induction l with
  | nil => rfl
  | cons c cs ih =>
      by_cases h : c = '"' <;>
        simp [escQuotesList, h, List.countP_cons, ih]

lemma countNL_escQuotes (s : String) : countNL (escQuotes s) = countNL s :=
  countNL_escQuotesList s.data

lemma countQuote_escQuotesList (l : List Char) :
    (escQuotesList l).countP (fun c => c == '"')
      = 2 * l.countP (fun c => c == '"') := by
  induction l with
  | nil => rfl
  | cons c cs ih =>
      by_cases h : c = '"' <;>
        simp [escQuotesList, h, List.countP_cons, ih] <;> omega

lemma countNL_renderVal (v : JSVal) (h : valNoNL v = true) :
    countNL (renderVal v) = 0 := by
  cases v with
  | str s =>
      have hs : countNL s = 0 := by simpa [valNoNL] using h
      show countNL ("\"" ++ escQuotes s ++ "\"") = 0
      rw [countNL_append, countNL_append, countNL_escQuotes, hs]
      rfl
  | raw coerced => simpa [valNoNL, renderVal] using h

lemma countNL_joinSep_zero (sep : String) (l : List String)
    (hsep : countNL sep = 0) (h : ∀ s ∈ l, countNL s = 0) :
    countNL (joinSep sep l) = 0 := by
  induction l with
  | nil => rfl
  | cons x xs ih =>
      cases xs with
      | nil => exact h x (by simp)
      | cons y ys =>
          show countNL (x ++ sep ++ joinSep sep (y :: ys)) = 0
          rw [countNL_append, countNL_append, hsep,
            h x (by simp), ih (fun s hs => h s (by simp [hs]))]

lemma countNL_joinSep_newline (l : List String) (hne : l ≠ [])
    (h : ∀ s ∈ l, countNL s = 0) :
    countNL (joinSep "\n" l) = l.length - 1 := by
  induction l with
  | nil => exact absurd rfl hne
  | cons x xs ih =>
      cases xs with
      | nil => simpa using h x (by simp)
      | cons y ys =>
          show countNL (x ++ "\n" ++ joinSep "\n" (y :: ys))
            = (x :: y :: ys).length - 1
          rw [countNL_append, countNL_append,
            h x (by simp), ih (by simp) (fun s hs => h s (by simp [hs])),
            show countNL "\n" = 1 from rfl]
          simp [Nat.add_comm]

/-- C8 counterexample: a single exported record whose string field embeds a
newline produces a CSV of 3 physical lines, not N + 1 = 2, even though the
field is quoted. -/
theorem C8_embedded_newline_counterexample :
    convertToCSV [[("errorMessage", JSVal.str "line one\nline two")]]
      = "errorMessage\n\"line one\nline two\""
    ∧ lineCount (convertToCSV
        [[("errorMessage", JSVal.str "line one\nline two")]]) = 3
    ∧ (3 : Nat) ≠ 1 + 1 := by
  refine ⟨by decide, by decide, by decide⟩

/-- C8 (amended): exporting an empty set yields the empty string; exporting
N ≥ 1 records whose field values and first-record keys contain no newline
yields exactly N+1 lines (the counterexample above shows the restriction is
needed); string fields are rendered quoted with `escQuotes`, which doubles
every embedded double-quote character. -/
theorem C8_csv_export_shape (logs : List (List (String × JSVal)))
    (hv : ∀ log ∈ logs, ∀ kv ∈ log, valNoNL (Prod.snd kv) = true)
    (hk : ∀ kv ∈ logs.headD [], countNL (Prod.fst kv) = 0) :
    (logs = [] → convertToCSV logs = "")
    ∧ (logs ≠ [] → lineCount (convertToCSV logs) = logs.length + 1)
    ∧ (∀ s, renderVal (JSVal.str s) = "\"" ++ escQuotes s ++ "\"")
    ∧ (∀ s, countQuote (escQuotes s) = 2 * countQuote s) := by
  refine ⟨fun h => by rw [h]; rfl, ?_, fun s => rfl,
    fun s => countQuote_escQuotesList s.data⟩
  intro hne
  match logs, hne with
  | first :: rest, _ =>
    have hv1 := hv
    have hcsv : convertToCSV (first :: rest)
        = joinSep "\n" (joinSep "," (first.map Prod.fst)
            :: (first :: rest).map fun log =>
              joinSep "," (log.map fun kv => renderVal kv.2)) := rfl
    have hhead : countNL (joinSep "," (first.map Prod.fst)) = 0 := by
      refine countNL_joinSep_zero "," _ (by decide) ?_
      intro s hs
      obtain ⟨kv, hkv, hkveq⟩ := List.mem_map.mp hs
      rw [← hkveq]
      exact hk kv hkv
    have hrows : ∀ row ∈ (first :: rest).map (fun log =>
        joinSep "," (log.map fun kv => renderVal kv.2)), countNL row = 0 := by
      intro row hrow
      obtain ⟨log, hlog, hloweq⟩ := List.mem_map.mp hrow
      rw [← hloweq]
      refine countNL_joinSep_zero "," _ (by decide) ?_
      intro s hs
      obtain ⟨kv, hkv, hkveq⟩ := List.mem_map.mp hs
      rw [← hkveq]
      exact countNL_renderVal kv.2 (hv1 log hlog kv hkv)
    rw [hcsv]
    unfold lineCount
    rw [countNL_joinSep_newline _ (by simp) ?_]
    · simp
    · intro s hs
      rcases List.mem_cons.mp hs with h1 | h1
      · rw [h1]; exact hhead
      · exact hrows s h1

/-- C8 witness: two newline-free records (one with an embedded quote, one
with a coerced boolean) export as exactly three lines. -/
def c8logs : List (List (String × JSVal)) :=
  [[("action", JSVal.str "flag_audit_log"), ("success", JSVal.raw "true")],
   [("action", JSVal.str "he said \"ok\""), ("success", JSVal.raw "false")]]

/-- C8 witness theorem: the amended shape theorem applied to `c8logs`. -/
theorem C8_csv_export_shape_witness :
    lineCount (convertToCSV c8logs) = c8logs.length + 1 :=
  (C8_csv_export_shape c8logs (by decide) (by decide)).2.1 (by decide)

end ChurchAudit
